import Mathlib

/-!
Shallow embedding of `src/aeron-client/src/main/c/aeron_image.h` (Aeron C
client, the Image handle) together with theorems checking the natural
language specification against it.

Machine integers (`int64_t`, `int32_t`) are modelled as `Int`; the claims
under study stay far from the 2^63 wrap, so overflow is immaterial.  The
externally owned subscriber-position cell `*image->subscriber_position` is
modelled by inlining its current contents as the field
`subscriber_position`.  The process globals written on failure (`errno`
and the `aeron_set_err` formatted message) are modelled by an explicit
`ErrState` threaded through `aeron_image_validate_position`; the values
the C code prints into the message (position, current, limit) are carried
by the `PositionError` constructors.  The atomic `AERON_GET_AND_ADD_INT64`
read-modify-write is modelled by state passing: each call returns the
prior value together with the updated image.
-/

namespace Aeron

/-- Modelled from the spec: `AERON_LOGBUFFER_FRAME_ALIGNMENT` is defined in
`aeron_logbuffer_descriptor.h`, which is not under `src/`; the spec fixes the
frame-alignment constant to 32. -/
def AERON_LOGBUFFER_FRAME_ALIGNMENT : Int := 32

/-- Value of the C `EINVAL` errno code, as set by `aeron_image_validate_position`. -/
def EINVAL : Int := 22

/-- State of `struct aeron_image_stct` (aeron_image.h, lines 29-51).  The
pointer fields (`command_base`, `conductor`, `subscription`, `log_buffer`)
are opaque handles that no claim touches and are omitted; the contents of
the external cell `*subscriber_position` appears as `subscriber_position`. -/
structure aeron_image_t where
  correlation_id : Int
  removal_change_number : Int
  final_position : Int
  refcnt : Int
  session_id : Int
  term_length_mask : Int
  position_bits_to_shift : Nat
  subscriber_position : Int
  is_closed : Bool
  is_lingering : Bool
deriving DecidableEq

/-- Error reported by `aeron_image_validate_position` through
`errno`/`aeron_set_err`; the constructor arguments carry the values the C
code formats into the error message. -/
inductive PositionError where
  | invalidPosition (position current limit : Int)
  | misalignedPosition (position : Int)
deriving DecidableEq

/-- Process-global error state written by `errno = EINVAL` and `aeron_set_err`. -/
structure ErrState where
  errno : Int
  aeron_err : Option PositionError
deriving DecidableEq

/-- Embedding of `aeron_image_removal_change_number` (aeron_image.h, lines 71-74). -/
def aeron_image_removal_change_number (image : aeron_image_t) : Int :=
  image.removal_change_number

/-- Embedding of `aeron_image_is_in_use_by_subcription` (aeron_image.h, lines
76-79): `return image->removal_change_number > last_change_number;`. -/
def aeron_image_is_in_use_by_subcription (image : aeron_image_t) (last_change_number : Int) : Bool :=
  decide (image.removal_change_number > last_change_number)

/-- Embedding of `aeron_image_validate_position` (aeron_image.h, lines 81-103).
Returns the C `int` result (0 or -1) together with the image state and the
global error state after the call. -/
def aeron_image_validate_position (image : aeron_image_t) (position : Int) (es : ErrState) :
    Int × aeron_image_t × ErrState :=
  let current_position := image.subscriber_position
  let limit_position :=
    (current_position - Int.land current_position image.term_length_mask) +
      image.term_length_mask + 1
  if position < current_position ∨ position > limit_position then
    (-1, image,
      { errno := EINVAL,
        aeron_err := some (PositionError.invalidPosition position current_position limit_position) })
  else if Int.land position (AERON_LOGBUFFER_FRAME_ALIGNMENT - 1) ≠ 0 then
    (-1, image,
      { errno := EINVAL, aeron_err := some (PositionError.misalignedPosition position) })
  else
    (0, image, es)

/-- Embedding of `aeron_image_incr_refcnt` (aeron_image.h, lines 105-111):
`AERON_GET_AND_ADD_INT64(result, image->refcnt, 1)` returns the prior value
and adds one. -/
def aeron_image_incr_refcnt (image : aeron_image_t) : Int × aeron_image_t :=
  (image.refcnt, { image with refcnt := image.refcnt + 1 })

/-- Embedding of `aeron_image_decr_refcnt` (aeron_image.h, lines 113-119):
`AERON_GET_AND_ADD_INT64(result, image->refcnt, -1)` returns the prior value
and subtracts one. -/
def aeron_image_decr_refcnt (image : aeron_image_t) : Int × aeron_image_t :=
  (image.refcnt, { image with refcnt := image.refcnt - 1 })

/-- Embedding of `aeron_image_refcnt_volatile` (aeron_image.h, lines 121-127):
a single atomic read of `image->refcnt`. -/
def aeron_image_refcnt_volatile (image : aeron_image_t) : Int :=
  image.refcnt

/-- Modelled from the spec: `aeron_image_force_close` is only declared in
aeron_image.h (line 69); its body lives in `aeron_image.c`, which is not under
`src/`.  Spec section 4.1: "sets the closed flag; does not touch the reference
count and does not deallocate; idempotent". -/
def aeron_image_force_close (image : aeron_image_t) : aeron_image_t :=
  { image with is_closed := true }

/-- One atomic reference-count operation, as issued by some thread. -/
inductive RefOp where
  | incr
  | decr
deriving DecidableEq

/-- Apply one reference-count operation to the image, returning the value the
call returns and the updated image. -/
def applyRefOp (image : aeron_image_t) : RefOp → Int × aeron_image_t
  | RefOp.incr => aeron_image_incr_refcnt image
  | RefOp.decr => aeron_image_decr_refcnt image

/-- Run an interleaving of reference-count operations.  Each operation is a
single atomic read-modify-write, so any concurrent execution by any number of
threads is equivalent to some such sequence. -/
def runRefOps (image : aeron_image_t) : List RefOp → aeron_image_t
  | [] => image
  | op :: rest => runRefOps (applyRefOp image op).2 rest

/-- Every reference-count value observable (via `aeron_image_refcnt_volatile`)
at some point of the sequence: before the first operation, between any two
operations, and after the last. -/
def refcntTrace (image : aeron_image_t) : List RefOp → List Int
  | [] => [aeron_image_refcnt_volatile image]
  | op :: rest => aeron_image_refcnt_volatile image :: refcntTrace (applyRefOp image op).2 rest

/-- Number of increments in a sequence of operations. -/
def incrCount : List RefOp → Nat
  | [] => 0
  | RefOp.incr :: rest => incrCount rest + 1
  | RefOp.decr :: rest => incrCount rest

/-- Number of decrements in a sequence of operations. -/
def decrCount : List RefOp → Nat
  | [] => 0
  | RefOp.incr :: rest => decrCount rest
  | RefOp.decr :: rest => decrCount rest + 1

/-- Concrete image used by the spec's worked examples: term length 65536
(mask 65535), subscriber position 0, reference count 0. -/
def sampleImage : aeron_image_t where
  correlation_id := 1
  removal_change_number := 0
  final_position := 0
  refcnt := 0
  session_id := 7
  term_length_mask := 65535
  position_bits_to_shift := 16
  subscriber_position := 0
  is_closed := false
  is_lingering := false

/-- Image marked for removal at change number 5 (spec end-to-end scenario). -/
def removedImage : aeron_image_t :=
  { sampleImage with removal_change_number := 5 }

/-- Clean global error state. -/
def es0 : ErrState :=
  { errno := 0, aeron_err := none }

theorem int_land_ofNat (m n : ℕ) : Int.land (m : ℤ) (n : ℤ) = ((m &&& n : ℕ) : ℤ) :=
  rfl

theorem int_land_mask (x : ℤ) (k : ℕ) (hx : 0 ≤ x) :
    Int.land x ((2 : ℤ) ^ k - 1) = x % (2 : ℤ) ^ k := by
  obtain ⟨n, rfl⟩ := Int.eq_ofNat_of_zero_le hx
  have h1 : (2 : ℤ) ^ k - 1 = ((2 ^ k - 1 : ℕ) : ℤ) := by
    have h2 : (1 : ℕ) ≤ 2 ^ k := Nat.one_le_two_pow
    push_cast [h2]
    ring
  rw [h1, int_land_ofNat, Nat.and_pow_two_sub_one_eq_mod]
  push_cast
  rfl

theorem int_land_31 (x : ℤ) (hx : 0 ≤ x) : Int.land x 31 = x % 32 := by
  have h := int_land_mask x 5 hx
  norm_num at h
  exact h

theorem align_const : AERON_LOGBUFFER_FRAME_ALIGNMENT - 1 = (31 : ℤ) := by
  norm_num [AERON_LOGBUFFER_FRAME_ALIGNMENT]

theorem validate_ok_of (image : aeron_image_t) (position : Int) (es : ErrState)
    (hrange : ¬(position < image.subscriber_position ∨
      position > image.subscriber_position -
        Int.land image.subscriber_position image.term_length_mask +
        image.term_length_mask + 1))
    (halign : Int.land position (AERON_LOGBUFFER_FRAME_ALIGNMENT - 1) = 0) :
    aeron_image_validate_position image position es = (0, image, es) := by
  simp [aeron_image_validate_position, hrange, halign]

/-- C1: `aeron_image_validate_position` reads `current` from the subscriber
position cell, computes `limit = (current - (current & term_length_mask)) +
term_length_mask + 1`, and fails with InvalidPosition exactly when
`position < current` or `position > limit`; an in-range position that is a
multiple of the frame alignment (32) succeeds.  With term length 65536 and
current position 0: position 0 is accepted, 65536 is accepted, and 65568 is
rejected with InvalidPosition carrying (65568, 0, 65536). -/
theorem validate_position_range_spec (image : aeron_image_t) (position : Int) (es : ErrState) :
    ((aeron_image_validate_position image position es).1 = -1 ∧
      (aeron_image_validate_position image position es).2.2.aeron_err =
        some (PositionError.invalidPosition position image.subscriber_position
          (image.subscriber_position -
            Int.land image.subscriber_position image.term_length_mask +
            image.term_length_mask + 1)) ↔
      position < image.subscriber_position ∨
        position > image.subscriber_position -
          Int.land image.subscriber_position image.term_length_mask +
          image.term_length_mask + 1) ∧
    (0 ≤ image.subscriber_position → image.subscriber_position ≤ position →
      position ≤ image.subscriber_position -
        Int.land image.subscriber_position image.term_length_mask +
        image.term_length_mask + 1 →
      (32 : Int) ∣ position →
      (aeron_image_validate_position image position es).1 = 0) ∧
    (aeron_image_validate_position sampleImage 0 es0).1 = 0 ∧
    (aeron_image_validate_position sampleImage 65536 es0).1 = 0 ∧
    (aeron_image_validate_position sampleImage 65568 es0).1 = -1 ∧
    (aeron_image_validate_position sampleImage 65568 es0).2.2.aeron_err =
      some (PositionError.invalidPosition 65568 0 65536) := by
  refine ⟨?_, ?_, by decide, by decide, by decide, by decide⟩
  · by_cases h : position < image.subscriber_position ∨
        position > image.subscriber_position -
          Int.land image.subscriber_position image.term_length_mask +
          image.term_length_mask + 1
    · simp [aeron_image_validate_position, h]
    · by_cases ha : Int.land position (AERON_LOGBUFFER_FRAME_ALIGNMENT - 1) ≠ 0
      · simp [aeron_image_validate_position, h, ha]
      · simp [aeron_image_validate_position, h, ha]
  · intro h0 h1 h2 hdvd
    have hpos : 0 ≤ position := le_trans h0 h1
    have hrange : ¬(position < image.subscriber_position ∨
        position > image.subscriber_position -
          Int.land image.subscriber_position image.term_length_mask +
          image.term_length_mask + 1) := by
      push_neg
      exact ⟨h1, h2⟩
    have halign : Int.land position (AERON_LOGBUFFER_FRAME_ALIGNMENT - 1) = 0 := by
      rw [align_const, int_land_31 position hpos]
      exact Int.emod_eq_zero_of_dvd hdvd
    rw [validate_ok_of image position es hrange halign]

theorem validate_position_range_spec_witness :
    (aeron_image_validate_position sampleImage 65536 es0).1 = 0 :=
  (validate_position_range_spec sampleImage 65536 es0).2.1
    (by decide) (by decide) (by decide) ⟨2048, by norm_num⟩

/-- C3: the upper bound of `aeron_image_validate_position` is inclusive: for
any image whose term-length mask is `2^k - 1` (term length a power of two of
at least 32, the frame alignment) and whose subscriber position is
nonnegative, validating the position exactly equal to `limit` (the first
offset of the next term) succeeds. -/
theorem validate_position_accepts_limit (image : aeron_image_t) (k : Nat) (es : ErrState)
    (hmask : image.term_length_mask = 2 ^ k - 1) (hk : 5 ≤ k)
    (hc : 0 ≤ image.subscriber_position) :
    (aeron_image_validate_position image
      (image.subscriber_position -
        Int.land image.subscriber_position image.term_length_mask +
        image.term_length_mask + 1) es).1 = 0 := by
  have ht : (0 : ℤ) < 2 ^ k := by positivity
  have hland : Int.land image.subscriber_position image.term_length_mask
      = image.subscriber_position % 2 ^ k := by
    rw [hmask]
    exact int_land_mask _ k hc
  have hmlt : image.subscriber_position % 2 ^ k < 2 ^ k := Int.emod_lt_of_pos _ ht
  have hmnn : 0 ≤ image.subscriber_position % 2 ^ k := Int.emod_nonneg _ (ne_of_gt ht)
  have hPval : image.subscriber_position -
      Int.land image.subscriber_position image.term_length_mask +
      image.term_length_mask + 1
      = image.subscriber_position - image.subscriber_position % 2 ^ k + 2 ^ k := by
    rw [hland, hmask]
    ring
  have hquot : image.subscriber_position - image.subscriber_position % 2 ^ k
      = 2 ^ k * (image.subscriber_position / 2 ^ k) := by
    have h := Int.ediv_add_emod image.subscriber_position (2 ^ k)
    omega
  have h32t : (32 : ℤ) ∣ 2 ^ k := by
    have h5 : (2 : ℤ) ^ 5 ∣ 2 ^ k := pow_dvd_pow 2 hk
    norm_num at h5
    exact h5
  have hPdvd : (32 : ℤ) ∣
      (image.subscriber_position - image.subscriber_position % 2 ^ k + 2 ^ k) := by
    rw [hquot]
    exact dvd_add (h32t.mul_right _) h32t
  have hP0 : 0 ≤ image.subscriber_position - image.subscriber_position % 2 ^ k + 2 ^ k := by
    omega
  have halign : Int.land
      (image.subscriber_position -
        Int.land image.subscriber_position image.term_length_mask +
        image.term_length_mask + 1) (AERON_LOGBUFFER_FRAME_ALIGNMENT - 1) = 0 := by
    rw [align_const, hPval, int_land_31 _ hP0]
    exact Int.emod_eq_zero_of_dvd hPdvd
  have hrange : ¬((image.subscriber_position -
        Int.land image.subscriber_position image.term_length_mask +
        image.term_length_mask + 1) < image.subscriber_position ∨
      (image.subscriber_position -
        Int.land image.subscriber_position image.term_length_mask +
        image.term_length_mask + 1) > image.subscriber_position -
          Int.land image.subscriber_position image.term_length_mask +
          image.term_length_mask + 1) := by
    push_neg
    refine ⟨?_, le_refl _⟩
    rw [hPval]
    omega
  rw [validate_ok_of image _ es hrange halign]

theorem validate_position_accepts_limit_witness :
    (aeron_image_validate_position sampleImage
      (sampleImage.subscriber_position -
        Int.land sampleImage.subscriber_position sampleImage.term_length_mask +
        sampleImage.term_length_mask + 1) es0).1 = 0 ∧
    sampleImage.subscriber_position -
        Int.land sampleImage.subscriber_position sampleImage.term_length_mask +
        sampleImage.term_length_mask + 1 = 65536 :=
  ⟨validate_position_accepts_limit sampleImage 16 es0 (by decide) (by decide) (by decide),
    by decide⟩

/-- C5: an in-range position that is not a multiple of the frame alignment
(32) is rejected with MisalignedPosition, while the range check runs first,
so any out-of-range position (aligned or not) is reported as InvalidPosition.
With term length 65536 and current position 0, position 31 is rejected as
MisalignedPosition. -/
theorem validate_position_misaligned_spec (image : aeron_image_t) (position : Int)
    (es : ErrState) :
    (0 ≤ image.subscriber_position → image.subscriber_position ≤ position →
      position ≤ image.subscriber_position -
        Int.land image.subscriber_position image.term_length_mask +
        image.term_length_mask + 1 →
      ¬((32 : Int) ∣ position) →
      (aeron_image_validate_position image position es).1 = -1 ∧
        (aeron_image_validate_position image position es).2.2.aeron_err =
          some (PositionError.misalignedPosition position)) ∧
    (position < image.subscriber_position ∨
        position > image.subscriber_position -
          Int.land image.subscriber_position image.term_length_mask +
          image.term_length_mask + 1 →
      (aeron_image_validate_position image position es).1 = -1 ∧
        (aeron_image_validate_position image position es).2.2.aeron_err =
          some (PositionError.invalidPosition position image.subscriber_position
            (image.subscriber_position -
              Int.land image.subscriber_position image.term_length_mask +
              image.term_length_mask + 1))) ∧
    (aeron_image_validate_position sampleImage 31 es0).1 = -1 ∧
    (aeron_image_validate_position sampleImage 31 es0).2.2.aeron_err =
      some (PositionError.misalignedPosition 31) := by
  refine ⟨?_, ?_, by decide, by decide⟩
  · intro h0 h1 h2 hnd
    have hpos : 0 ≤ position := le_trans h0 h1
    have hrange : ¬(position < image.subscriber_position ∨
        position > image.subscriber_position -
          Int.land image.subscriber_position image.term_length_mask +
          image.term_length_mask + 1) := by
      push_neg
      exact ⟨h1, h2⟩
    have ha : Int.land position (AERON_LOGBUFFER_FRAME_ALIGNMENT - 1) ≠ 0 := by
      rw [align_const, int_land_31 position hpos]
      intro h
      exact hnd (Int.dvd_of_emod_eq_zero h)
    simp [aeron_image_validate_position, hrange, ha]
  · intro h
    simp [aeron_image_validate_position, h]

theorem validate_position_misaligned_spec_witness :
    (aeron_image_validate_position sampleImage 31 es0).1 = -1 ∧
    (aeron_image_validate_position sampleImage 31 es0).2.2.aeron_err =
      some (PositionError.misalignedPosition 31) :=
  (validate_position_misaligned_spec sampleImage 31 es0).1
    (by decide) (by decide) (by decide) (by omega)

theorem runRefOps_refcnt (ops : List RefOp) : ∀ image : aeron_image_t,
    (runRefOps image ops).refcnt =
      image.refcnt + (incrCount ops : Int) - (decrCount ops : Int) := by
  induction ops with
  | nil =>
    intro image
    simp [runRefOps, incrCount, decrCount]
  | cons op rest ih =>
    intro image
    cases op <;>
      simp [runRefOps, applyRefOp, aeron_image_incr_refcnt, aeron_image_decr_refcnt,
        incrCount, decrCount, ih] <;>
      omega

theorem mem_refcntTrace (ops : List RefOp) : ∀ (image : aeron_image_t) (v : Int),
    v ∈ refcntTrace image ops →
    ∃ n, n ≤ ops.length ∧
      v = image.refcnt + (incrCount (ops.take n) : Int) - (decrCount (ops.take n) : Int) := by
  induction ops with
  | nil =>
    intro image v hv
    simp [refcntTrace, aeron_image_refcnt_volatile] at hv
    exact ⟨0, by simp, by simp [hv, incrCount, decrCount]⟩
  | cons op rest ih =>
    intro image v hv
    simp [refcntTrace, aeron_image_refcnt_volatile] at hv
    rcases hv with hv | hv
    · exact ⟨0, by simp, by simp [hv, incrCount, decrCount]⟩
    · obtain ⟨n, hn, hval⟩ := ih (applyRefOp image op).2 v hv
      refine ⟨n + 1, by simpa using hn, ?_⟩
      cases op <;>
        simp [applyRefOp, aeron_image_incr_refcnt, aeron_image_decr_refcnt,
          List.take_succ_cons, incrCount, decrCount] at hval ⊢ <;>
        omega

/-- C2 (amended): every interleaving of N increments and M decrements of the
reference count, starting from 0, leaves the final snapshot at exactly N - M;
and provided the calls respect the caller contract (in every prefix of the
interleaving decrements never outnumber increments) the count is never
observed negative.  Each call is a single atomic fetch-and-add, so a
concurrent execution by any number of threads is equivalent to some
interleaving. -/
theorem refcnt_sequence_spec (image : aeron_image_t) (ops : List RefOp)
    (h0 : image.refcnt = 0) :
    ((runRefOps image ops).refcnt = (incrCount ops : Int) - (decrCount ops : Int)) ∧
    ((∀ n, n ≤ ops.length → decrCount (ops.take n) ≤ incrCount (ops.take n)) →
      ∀ v ∈ refcntTrace image ops, 0 ≤ v) := by
  constructor
  · have h := runRefOps_refcnt ops image
    omega
  · intro hbal v hv
    obtain ⟨n, hn, hval⟩ := mem_refcntTrace ops image v hv
    have h := hbal n hn
    omega

theorem refcnt_sequence_spec_witness :
    (runRefOps sampleImage [RefOp.incr, RefOp.incr, RefOp.decr, RefOp.decr]).refcnt = 0 ∧
    ∀ v ∈ refcntTrace sampleImage [RefOp.incr, RefOp.incr, RefOp.decr, RefOp.decr],
      0 ≤ v := by
  have h := refcnt_sequence_spec sampleImage
    [RefOp.incr, RefOp.incr, RefOp.decr, RefOp.decr] rfl
  refine ⟨?_, h.2 (by decide)⟩
  rw [h.1]
  decide

/-- C2 counterexample: with zero increments and one decrement in total on an
image whose count starts at 0 (so N - M = -1), the value -1 is observed
during the sequence, refuting the claim that the count is never observed
negative for every such sequence. -/
theorem refcnt_observed_negative_counterexample :
    sampleImage.refcnt = 0 ∧
    incrCount [RefOp.decr] = 0 ∧ decrCount [RefOp.decr] = 1 ∧
    (-1 : Int) ∈ refcntTrace sampleImage [RefOp.decr] ∧ ¬(0 : Int) ≤ (-1 : Int) := by
  refine ⟨rfl, rfl, rfl, ?_, by decide⟩
  decide

/-- C4: `aeron_image_is_in_use_by_subcription image n` is true exactly when
`image.removal_change_number > n`; it is false for every `n` at or above the
removal change number.  Concretely, for an image marked for removal at change
number 5, a snapshot at change number 5 sees false and one at 4 sees true. -/
theorem is_in_use_by_subcription_spec (image : aeron_image_t) (n : Int) :
    (aeron_image_is_in_use_by_subcription image n = true ↔ image.removal_change_number > n) ∧
    (image.removal_change_number ≤ n → aeron_image_is_in_use_by_subcription image n = false) ∧
    aeron_image_is_in_use_by_subcription removedImage 5 = false ∧
    aeron_image_is_in_use_by_subcription removedImage 4 = true := by
  refine ⟨?_, ?_, by decide, by decide⟩
  · simp [aeron_image_is_in_use_by_subcription]
  · intro h
    simp [aeron_image_is_in_use_by_subcription]
    omega

theorem is_in_use_by_subcription_spec_witness :
    aeron_image_is_in_use_by_subcription removedImage 7 = false :=
  (is_in_use_by_subcription_spec removedImage 7).2.1 (by decide)

/-- C6: `aeron_image_incr_refcnt` returns the value the count had immediately
before the call and leaves the image identical except that the count has
increased by exactly one. -/
theorem incr_refcnt_spec (image : aeron_image_t) :
    (aeron_image_incr_refcnt image).1 = image.refcnt ∧
    (aeron_image_incr_refcnt image).2 = { image with refcnt := image.refcnt + 1 } :=
  ⟨rfl, rfl⟩

/-- C7: `aeron_image_decr_refcnt` returns the value the count had immediately
before the call and leaves the image identical except that the count has
decreased by exactly one; there is no underflow protection, so calling it with
the count at 0 returns 0 and leaves the count at -1. -/
theorem decr_refcnt_spec (image : aeron_image_t) :
    (aeron_image_decr_refcnt image).1 = image.refcnt ∧
    (aeron_image_decr_refcnt image).2 = { image with refcnt := image.refcnt - 1 } ∧
    (image.refcnt = 0 →
      (aeron_image_decr_refcnt image).1 = 0 ∧
      (aeron_image_decr_refcnt image).2.refcnt = -1) := by
  refine ⟨rfl, rfl, ?_⟩
  intro h
  simp [aeron_image_decr_refcnt, h]

theorem decr_refcnt_spec_witness :
    (aeron_image_decr_refcnt sampleImage).1 = 0 ∧
    (aeron_image_decr_refcnt sampleImage).2.refcnt = -1 :=
  (decr_refcnt_spec sampleImage).2.2 (by decide)

/-- C8: `aeron_image_force_close` sets `is_closed`, leaves every other field
(in particular the reference count) unchanged, deallocates nothing, and is
idempotent: a second call changes nothing at all. -/
theorem force_close_idempotent_spec (image : aeron_image_t) :
    (aeron_image_force_close image).is_closed = true ∧
    aeron_image_force_close (aeron_image_force_close image) = aeron_image_force_close image ∧
    (aeron_image_force_close (aeron_image_force_close image)).is_closed = true ∧
    (aeron_image_force_close image).refcnt = image.refcnt ∧
    (aeron_image_force_close (aeron_image_force_close image)).refcnt = image.refcnt ∧
    aeron_image_force_close image = { image with is_closed := true } :=
  ⟨rfl, rfl, rfl, rfl, rfl, rfl⟩

/-- C9: `aeron_image_validate_position` is read-only on the image and on the
subscriber-position cell it reads: whether it succeeds or fails, the image
state it returns (which includes the cell contents) is exactly its input.
Only the process-global error state may change. -/
theorem validate_position_readonly (image : aeron_image_t) (position : Int) (es : ErrState) :
    (aeron_image_validate_position image position es).2.1 = image := by
  simp only [aeron_image_validate_position]
  split
  · rfl
  · split <;> rfl

/-- C10: incrementing and then decrementing the reference count restores the
image exactly, and the decrement returns one more than the increment returned. -/
theorem incr_decr_roundtrip (image : aeron_image_t) :
    (aeron_image_decr_refcnt (aeron_image_incr_refcnt image).2).2 = image ∧
    (aeron_image_decr_refcnt (aeron_image_incr_refcnt image).2).1 =
      (aeron_image_incr_refcnt image).1 + 1 := by
  constructor
  · simp [aeron_image_incr_refcnt, aeron_image_decr_refcnt]
  · simp [aeron_image_incr_refcnt, aeron_image_decr_refcnt]

end Aeron
